import Mathlib

/-!
Verification of the buzz message producer (`producers/kafka_producer_strickland.py`).

The script is embedded shallowly: external effects (logging, broker calls,
environment reads, sleeping) are recorded as events in a trace, and the
infinite emission loop is run under a fuel bound counting outer passes.
Outcomes of the broker `send` calls (success, keyboard interrupt, other
exception) are supplied by an oracle indexed by the global send counter.
-/

namespace BuzzProducer

/-- Outcome of one `producer.send` call: it returns normally, a
`KeyboardInterrupt` arrives at it, or some other exception is raised. -/
inductive SendOutcome where
  | ok
  | interrupt
  | error (msg : String)
deriving DecidableEq

/-- The arguments of `generate_messages` that matter to the trace, plus the
send-outcome oracle standing for the external world. -/
structure Ctx where
  topic : String
  interval : Int
  outcome : Nat → SendOutcome

/-- Observable events of a run: log lines at their severities and the calls
made to external collaborators (dotenv, service check, broker client,
environment, clock). -/
inductive Event where
  | logInfo (s : String)
  | logWarning (s : String)
  | logError (s : String)
  | loadDotenv
  | verifyServices
  | getenv (name : String)
  | createProducer
  | createTopic (t : String)
  | send (topic value : String)
  | sleep (secs : Int)
  | close
deriving DecidableEq

/-- How one invocation of `main` ends. -/
inductive MainResult where
  | exited (code : Nat)
  | finished
  | uncaught (err : String)
  | running
deriving DecidableEq

/-- Python `int(s)` on a string: surrounding whitespace stripped, an optional
single sign, then at least one ASCII digit; anything else raises `ValueError`
(modelled as `none`). -/
def pyInt (s : String) : Option Int :=
  let t : List Char :=
    ((s.data.dropWhile Char.isWhitespace).reverse.dropWhile
      Char.isWhitespace).reverse
  let signDigits : Int × List Char :=
    match t with
    | '-' :: rest => (-1, rest)
    | '+' :: rest => (1, rest)
    | l => (1, l)
  if signDigits.2 ≠ [] ∧ signDigits.2.all Char.isDigit then
    some (signDigits.1 * Int.ofNat
      (signDigits.2.foldl (fun acc c => acc * 10 + (c.toNat - 48)) 0))
  else
    none

/-- Model of `get_kafka_topic`: read `KAFKA_TOPIC` with default `"buzz_topic"`, log it,
return it (lines 34-38 of the source). -/
def get_kafka_topic (env : String → Option String) : List Event × String :=
  let topic := (env "KAFKA_TOPIC").getD "buzz_topic"
  ([Event.getenv "KAFKA_TOPIC", Event.logInfo ("Kafka topic: " ++ topic)], topic)

/-- Model of `get_message_interval`: read `MESSAGE_INTERVAL_SECONDS` (default `10`),
parse it as an integer, log it, return it; a failing parse raises out of the
function before the log line runs (lines 41-45 of the source). -/
def get_message_interval (env : String → Option String) :
    List Event × Except String Int :=
  match env "MESSAGE_INTERVAL_SECONDS" with
  | none =>
      ([Event.getenv "MESSAGE_INTERVAL_SECONDS",
        Event.logInfo "Message interval: 10 seconds"], Except.ok 10)
  | some s =>
      match pyInt s with
      | some i =>
          ([Event.getenv "MESSAGE_INTERVAL_SECONDS",
            Event.logInfo ("Message interval: " ++ toString i ++ " seconds")],
           Except.ok i)
      | none =>
          ([Event.getenv "MESSAGE_INTERVAL_SECONDS"],
           Except.error ("invalid literal for int() with base 10: " ++ s))

/-- The events of one successful iteration of the inner `for` body: the
pre-send log, the send, the post-send log and the `time.sleep` (lines
171-174 of the source). -/
def cleanBlock (ctx : Ctx) (m : String) : List Event :=
  [Event.logInfo ("Generated buzz: " ++ m),
   Event.send ctx.topic m,
   Event.logInfo ("Sent message to topic \x27" ++ ctx.topic ++ "\x27: " ++ m),
   Event.sleep ctx.interval]

/-- How the `try` block of `generate_messages` was left. -/
inductive ExitKind where
  | interrupted
  | errored (msg : String)
deriving DecidableEq

/-- One pass of the inner `for message in string_list` loop, starting at
global send index `n`: on each element the pre-send log always runs; the
send then succeeds, or the iteration is aborted by an interrupt or an
exception (lines 170-174). Returns the events, the exception that escaped
(if any) and the next global send index. -/
def innerFor (ctx : Ctx) : List String → Nat → List Event × Option ExitKind × Nat
  | [], n => ([], none, n)
  | m :: rest, n =>
    match ctx.outcome n with
    | SendOutcome.ok =>
        let r := innerFor ctx rest (n + 1)
        (cleanBlock ctx m ++ r.1, r.2.1, r.2.2)
    | SendOutcome.interrupt =>
        ([Event.logInfo ("Generated buzz: " ++ m)], some ExitKind.interrupted, n)
    | SendOutcome.error e =>
        ([Event.logInfo ("Generated buzz: " ++ m)], some (ExitKind.errored e), n)

/-- The outer `while True` loop (line 169), bounded by `fuel` outer passes:
runs inner passes until one raises, or until fuel runs out (in which case the
loop is still running and nothing has escaped). -/
def whileTrue (ctx : Ctx) (lst : List String) :
    Nat → Nat → List Event × Option ExitKind × Nat
  | 0, n => ([], none, n)
  | fuel + 1, n =>
    let r := innerFor ctx lst n
    match r.2.1 with
    | some e => (r.1, some e, r.2.2)
    | none =>
        let r2 := whileTrue ctx lst fuel r.2.2
        (r.1 ++ r2.1, r2.2.1, r2.2.2)

/-- Model of `generate_messages` around an arbitrary source list: the `try` section is
the bounded loop; `except KeyboardInterrupt` logs a warning, `except
Exception` logs the error, and `finally` closes the producer and logs it
(lines 168-181).  The Boolean is `true` when the call returned (some
exception ended the loop) and `false` when fuel ran out with the loop still
going, in which case the `finally` section has not run yet. -/
def generate_messagesCore (ctx : Ctx) (lst : List String) (fuel : Nat) :
    List Event × Bool :=
  let r := whileTrue ctx lst fuel 0
  match r.2.1 with
  | some ExitKind.interrupted =>
      (r.1 ++ [Event.logWarning "Producer interrupted by user.",
               Event.close, Event.logInfo "Kafka producer closed."], true)
  | some (ExitKind.errored e) =>
      (r.1 ++ [Event.logError ("Error in message generation: " ++ e),
               Event.close, Event.logInfo "Kafka producer closed."], true)
  | none => (r.1, false)

/-- The hardcoded buzz string list of `generate_messages` (lines 63-167). -/
def string_list : List String :=
  ["This doesn’t make any sense",
   "I don’t get it",
   "This is so confusing",
   "I give up",
   "I can’t do this",
   "Wait, what just happened?",
   "I thought I understood, but I don’t",
   "This problem is impossible",
   "Why is this so hard?",
   "Nothing is clicking",
   "I need help",
   "Can you explain this again?",
   "I’m totally lost",
   "This is frustrating",
   "My brain hurts",
   "I’m stuck",
   "I don’t know where to start",
   "I keep messing up",
   "I hate this problem",
   "I’ve tried everything",
   "This is taking forever",
   "Why can’t I figure this out?",
   "I’m going in circles",
   "I keep getting the wrong answer",
   "This is the worst",
   "I don’t like math",
   "I can’t focus",
   "I wish I was done",
   "This is boring",
   "How many problems are left?",
   "Why do we even need to learn this?",
   "This is dragging on",
   "I’d rather be doing anything else",
   "This is so repetitive",
   "I’m tired of this",
   "Can we just stop?",
   "I’m over it",
   "Does this even matter?",
   "This is too much",
   "I can’t believe this is homework",
   "I’ll never use this in real life",
   "This was tough at first but now I think I’ve got it",
   "Oh! Now it makes sense",
   "Wait, I get it now",
   "This is actually kind of fun",
   "I solved it!",
   "I can’t believe I did it!",
   "That wasn’t so bad",
   "Yes! I got it right",
   "I’m on a roll",
   "This is clicking now",
   "This isn’t as hard as I thought",
   "Okay, I think I understand",
   "I’m getting the hang of this",
   "I can do this!",
   "I finally figured it out",
   "I feel smart",
   "This problem makes sense now",
   "I knew I could do it",
   "This is easier than it looked",
   "I like this kind of problem",
   "I think I’m improving",
   "I got the same answer twice, so it must be right",
   "Yes, that worked!",
   "This step was the key",
   "It’s actually satisfying when it works",
   "This is kind of cool",
   "I’m proud of myself",
   "I actually like this problem",
   "This isn’t so scary anymore",
   "Okay, I can explain it to someone else now",
   "I’m in the zone",
   "I’m working faster now",
   "I can focus right now",
   "I like figuring this out",
   "This is keeping me busy",
   "I feel productive",
   "I’m solving these one after another",
   "I just need to keep going",
   "I’m almost finished",
   "I can see the pattern now",
   "I’m starting to enjoy this",
   "I’m determined to finish",
   "This is actually interesting",
   "I just need to double-check my steps",
   "I’m noticing my mistakes and fixing them",
   "This problem is like a puzzle",
   "I just found the trick",
   "This part is easy",
   "I see what the teacher meant now",
   "I’m faster than I was before",
   "I’m focused right now",
   "This feels like progress",
   "I’m learning as I go",
   "This is kind of satisfying",
   "I know what to do next",
   "I just need to be careful",
   "I’ve got momentum",
   "I can finish strong",
   "This feels good",
   "I actually get it now",
   "I’m proud of my work",
   "I can’t wait to check my answer"]

/-- Model of `generate_messages` as in the source, over the hardcoded list. -/
def generate_messages (ctx : Ctx) (fuel : Nat) : List Event × Bool :=
  generate_messagesCore ctx string_list fuel

/-- The data of `main` supplied by the outside world: the environment after
`load_dotenv`, whether `create_kafka_producer` returns a usable handle,
whether `create_kafka_topic` succeeds (with the text of the exception when it
does not), and the send-outcome oracle for the loop. -/
structure World where
  env : String → Option String
  producerOk : Bool
  topicOk : Bool
  topicErr : String
  outcome : Nat → SendOutcome

/-- Model of `main` (lines 189-224): start-up logs, `load_dotenv`, `verify_services`,
config resolution, producer acquisition (exit 3 when it yields no handle),
topic creation (exit 1 on failure), then the emission loop. A parse failure
in `get_message_interval` propagates uncaught. -/
def main (w : World) (fuel : Nat) : List Event × MainResult :=
  let started : List Event :=
    [Event.logInfo "START producer.",
     Event.logInfo "Loading environment variables from .env file...",
     Event.loadDotenv, Event.verifyServices]
  let rT := get_kafka_topic w.env
  let rI := get_message_interval w.env
  match rI.2 with
  | Except.error e => (started ++ rT.1 ++ rI.1, MainResult.uncaught e)
  | Except.ok interval =>
    let ev1 := started ++ rT.1 ++ rI.1 ++ [Event.createProducer]
    if w.producerOk = false then
      (ev1 ++ [Event.logError "Failed to create Kafka producer. Exiting..."],
       MainResult.exited 3)
    else
      let ev2 := ev1 ++ [Event.createTopic rT.2]
      if w.topicOk = false then
        (ev2 ++ [Event.logError ("Failed to create or verify topic \x27" ++
            rT.2 ++ "\x27: " ++ w.topicErr)],
         MainResult.exited 1)
      else
        let ev3 := ev2 ++
          [Event.logInfo ("Kafka topic \x27" ++ rT.2 ++ "\x27 is ready."),
           Event.logInfo ("Starting message production to topic \x27" ++
             rT.2 ++ "\x27...")]
        let rG := generate_messages ⟨rT.2, interval, w.outcome⟩ fuel
        if rG.2 then (ev3 ++ rG.1 ++ [Event.logInfo "END producer."],
                      MainResult.finished)
        else (ev3 ++ rG.1, MainResult.running)

/-- The values sent to the broker, in order, in a trace. -/
def sentValues (evs : List Event) : List String :=
  evs.filterMap fun e =>
    match e with
    | Event.send _ v => some v
    | _ => none

/-- Whether an event is the `producer.close()` call. -/
def isClose (e : Event) : Bool :=
  match e with
  | Event.close => true
  | _ => false

/-- The subtrace of sends and waits: sent value as `Sum.inl`, wait seconds as
`Sum.inr`, everything else dropped. -/
def sendSleepProj (evs : List Event) : List (String ⊕ Int) :=
  evs.filterMap fun e =>
    match e with
    | Event.send _ v => some (Sum.inl v)
    | Event.sleep s => some (Sum.inr s)
    | _ => none

/-- Some number `fuel` of concatenated copies of a list: what the cyclic traversal walks in
`fuel` outer passes. -/
def cycle (lst : List String) (fuel : Nat) : List String :=
  (List.replicate fuel lst).flatten


/-- Truth of an `Except` being a success. -/
def exceptOk {ε α : Type} : Except ε α → Bool
  | Except.ok _ => true
  | Except.error _ => false

/-- A loop context whose sends all succeed, for concrete runs. -/
def ctxA : Ctx := ⟨"t", 0, fun _ => SendOutcome.ok⟩

/-- A loop context interrupted at the very first send. -/
def ctxInt : Ctx := ⟨"t", 0, fun _ => SendOutcome.interrupt⟩

/-- A loop context whose second send raises an exception. -/
def ctxErr : Ctx :=
  ⟨"t", 0, fun k => if k = 1 then SendOutcome.error "boom" else SendOutcome.ok⟩

/-- The empty environment: no variable is set. -/
def envEmpty : String → Option String := fun _ => none

/-- An environment whose interval variable holds a negative integer. -/
def envNeg : String → Option String :=
  fun n => if n = "MESSAGE_INTERVAL_SECONDS" then some "-5" else none

/-- An environment whose interval variable holds a non-numeric string. -/
def envBad : String → Option String :=
  fun n => if n = "MESSAGE_INTERVAL_SECONDS" then some "ten" else none

/-- A world where producer acquisition yields no usable handle. -/
def w0 : World := ⟨envEmpty, false, true, "", fun _ => SendOutcome.ok⟩

/-- A world where the producer is fine but topic creation raises. -/
def w4 : World := ⟨envEmpty, true, false, "boom", fun _ => SendOutcome.ok⟩

/-- A world with a malformed interval variable. -/
def w7 : World := ⟨envBad, true, true, "", fun _ => SendOutcome.ok⟩

/-- A world for observing the start-up order of `main`. -/
def w9 : World := ⟨envEmpty, false, true, "", fun _ => SendOutcome.ok⟩

lemma innerFor_clean (ctx : Ctx) (rest : List String) (s : Nat)
    (h : ∀ k, k < rest.length → ctx.outcome (s + k) = SendOutcome.ok) :
    innerFor ctx rest s
      = (((rest.map (cleanBlock ctx)).flatten), none, s + rest.length) := by
  induction rest generalizing s with
  | nil => simp [innerFor]
  | cons m rest ih =>
    have h0 : ctx.outcome s = SendOutcome.ok := by
      have := h 0 (by simp)
      simpa using this
    have ih' := ih (s + 1) (fun k hk => by
      have := h (k + 1) (by simpa using Nat.succ_lt_succ hk)
      simpa [Nat.add_assoc, Nat.add_comm 1 k] using this)
    simp [innerFor, h0, ih', Nat.add_assoc, Nat.add_comm 1 rest.length]

lemma whileTrue_clean (ctx : Ctx) (lst : List String)
    (hok : ∀ k, ctx.outcome k = SendOutcome.ok) (fuel s : Nat) :
    whileTrue ctx lst fuel s
      = (((cycle lst fuel).map (cleanBlock ctx)).flatten, none,
          s + fuel * lst.length) := by
  induction fuel generalizing s with
  | zero => simp [whileTrue, cycle]
  | succ fuel ih =>
    have hin := innerFor_clean ctx lst s (fun k _ => hok (s + k))
    simp [whileTrue, hin, ih, cycle, List.replicate_succ, Nat.succ_mul,
      Nat.add_assoc, Nat.mul_comm, Nat.add_comm (lst.length)]

lemma sentValues_append (a b : List Event) :
    sentValues (a ++ b) = sentValues a ++ sentValues b := by
  simp [sentValues]

lemma sentValues_cleanBlock (ctx : Ctx) (m : String) :
    sentValues (cleanBlock ctx m) = [m] := by
  simp [sentValues, cleanBlock]

lemma sentValues_blocks (ctx : Ctx) (l : List String) :
    sentValues ((l.map (cleanBlock ctx)).flatten) = l := by
  induction l with
  | nil => simp [sentValues]
  | cons m l ih => simp [sentValues_append, sentValues_cleanBlock, ih]

lemma cycle_getElem (lst : List String) (fuel n : Nat)
    (h : n < fuel * lst.length) :
    (cycle lst fuel)[n]? = lst[n % lst.length]? := by
  induction fuel generalizing n with
  | zero => simp at h
  | succ fuel ih =>
    have hcons : cycle lst (fuel + 1) = lst ++ cycle lst fuel := by
      simp [cycle, List.replicate_succ]
    rw [hcons]
    have hsm : n < fuel * lst.length + lst.length := by
      rw [Nat.succ_mul] at h; exact h
    by_cases hn : n < lst.length
    · rw [List.getElem?_append_left hn, Nat.mod_eq_of_lt hn]
    · push_neg at hn
      rw [List.getElem?_append_right hn, Nat.mod_eq_sub_mod hn]
      exact ih (n - lst.length) (by omega)

lemma sendSleepProj_append (a b : List Event) :
    sendSleepProj (a ++ b) = sendSleepProj a ++ sendSleepProj b := by
  simp [sendSleepProj]

lemma sendSleepProj_cleanBlock (ctx : Ctx) (m : String) :
    sendSleepProj (cleanBlock ctx m) = [Sum.inl m, Sum.inr ctx.interval] := by
  simp [sendSleepProj, cleanBlock]

lemma sendSleepProj_blocks (ctx : Ctx) (l : List String) :
    sendSleepProj ((l.map (cleanBlock ctx)).flatten)
      = l.flatMap (fun v => [Sum.inl v, Sum.inr ctx.interval]) := by
  induction l with
  | nil => simp [sendSleepProj]
  | cons m l ih =>
      rw [List.map_cons, List.flatten_cons, sendSleepProj_append,
        sendSleepProj_cleanBlock, ih, List.flatMap_cons]

lemma isClose_innerFor (ctx : Ctx) (rest : List String) (s : Nat) :
    ((innerFor ctx rest s).1).countP isClose = 0 := by
  induction rest generalizing s with
  | nil => simp [innerFor]
  | cons m rest ih =>
    cases h : ctx.outcome s with
    | ok => simp [innerFor, h, ih, cleanBlock, isClose]
    | interrupt => simp [innerFor, h, isClose]
    | error e => simp [innerFor, h, isClose]

lemma isClose_whileTrue (ctx : Ctx) (lst : List String) (fuel s : Nat) :
    ((whileTrue ctx lst fuel s).1).countP isClose = 0 := by
  induction fuel generalizing s with
  | zero => simp [whileTrue]
  | succ fuel ih =>
    cases h : (innerFor ctx lst s).2.1 with
    | none => simp [whileTrue, h, isClose_innerFor, ih]
    | some e => simp [whileTrue, h, isClose_innerFor]

lemma innerFor_error (ctx : Ctx) (e : String) (rest : List String) (s j : Nat)
    (hb : ∀ k, k < j → ctx.outcome (s + k) = SendOutcome.ok)
    (he : ctx.outcome (s + j) = SendOutcome.error e)
    (hj : j < rest.length) :
    (innerFor ctx rest s).2.1 = some (ExitKind.errored e)
    ∧ (sentValues (innerFor ctx rest s).1).length = j := by
  induction rest generalizing s j with
  | nil => simp at hj
  | cons m rest ih =>
    cases j with
    | zero =>
      have h0 : ctx.outcome s = SendOutcome.error e := by simpa using he
      simp [innerFor, h0, sentValues]
    | succ j =>
      have h0 : ctx.outcome s = SendOutcome.ok := by
        have := hb 0 (Nat.succ_pos j)
        simpa using this
      have ih' := ih (s + 1) j
        (fun k hk => by
          have := hb (k + 1) (Nat.succ_lt_succ hk)
          simpa [Nat.add_assoc, Nat.add_comm 1 k] using this)
        (by simpa [Nat.add_assoc, Nat.add_comm 1 j] using he)
        (by simpa using Nat.lt_of_succ_lt_succ hj)
      constructor
      · simp [innerFor, h0, ih'.1]
      · simp [innerFor, h0, sentValues_append, sentValues_cleanBlock, ih'.2]

lemma whileTrue_error (ctx : Ctx) (lst : List String) (e : String) :
    ∀ fuel s j, (∀ k, k < j → ctx.outcome (s + k) = SendOutcome.ok) →
      ctx.outcome (s + j) = SendOutcome.error e →
      j < fuel * lst.length →
      (whileTrue ctx lst fuel s).2.1 = some (ExitKind.errored e)
      ∧ (sentValues (whileTrue ctx lst fuel s).1).length = j := by
  intro fuel
  induction fuel with
  | zero => intro s j _ _ hj; simp at hj
  | succ fuel ih =>
    intro s j hb he hj
    rw [Nat.succ_mul] at hj
    by_cases hjl : j < lst.length
    · have hin := innerFor_error ctx e lst s j hb he hjl
      constructor
      · simp [whileTrue, hin.1]
      · simp [whileTrue, hin.1, hin.2]
    · push_neg at hjl
      have hclean := innerFor_clean ctx lst s (fun k hk => hb k (by omega))
      have ih' := ih (s + lst.length) (j - lst.length)
        (fun k hk => by
          have := hb (lst.length + k) (by omega)
          simpa [Nat.add_assoc] using this)
        (by
          have hsj : s + lst.length + (j - lst.length) = s + j := by omega
          rw [hsj]; exact he)
        (by omega)
      constructor
      · simp [whileTrue, hclean, ih'.1]
      · simp [whileTrue, hclean, sentValues_append, sentValues_blocks, ih'.2]
        omega

lemma get_message_interval_head (env : String → Option String) :
    ∃ evs, (get_message_interval env).1
      = Event.getenv "MESSAGE_INTERVAL_SECONDS" :: evs := by
  cases henv : env "MESSAGE_INTERVAL_SECONDS" with
  | none => exact ⟨_, by simp [get_message_interval, henv]; rfl⟩
  | some s =>
      cases hp : pyInt s with
      | some i => exact ⟨_, by simp [get_message_interval, henv, hp]; rfl⟩
      | none => exact ⟨_, by simp [get_message_interval, henv, hp]; rfl⟩


/-- Claim C1: in an uninterrupted, failure-free run of the emission loop, the
message sent at global index `n` is the source-list entry at index
`n mod L`, `L` the list length. -/
theorem generate_messages_cyclic (ctx : Ctx) (lst : List String) (fuel n : Nat)
    (hok : ∀ k, ctx.outcome k = SendOutcome.ok) (hn : n < fuel * lst.length) :
    (sentValues (generate_messagesCore ctx lst fuel).1)[n]?
      = lst[n % lst.length]? := by
  have hw := whileTrue_clean ctx lst hok fuel 0
  simp [generate_messagesCore, hw, sentValues_blocks,
    cycle_getElem lst fuel n hn]

/-- Witness for C1: with source list a, b, c and interval 0 the first 7 sent
values are a, b, c, a, b, c, a, and the 7th equals the entry at 6 mod 3. -/
theorem generate_messages_cyclic_witness :
    (sentValues (generate_messagesCore ctxA ["a", "b", "c"] 3).1).take 7
      = ["a", "b", "c", "a", "b", "c", "a"]
    ∧ (6 < 3 * (["a", "b", "c"] : List String).length
       ∧ (sentValues (generate_messagesCore ctxA ["a", "b", "c"] 3).1)[6]?
           = ["a", "b", "c"][6 % 3]?) :=
  ⟨by decide,
   ⟨by decide,
    generate_messages_cyclic ctxA ["a", "b", "c"] 3 6 (fun _ => rfl)
      (by decide)⟩⟩

/-- Claim C2: whenever the emission loop invocation returns (any exit path),
the producer close call appears exactly once in its trace. -/
theorem generate_messages_close_once (ctx : Ctx) (lst : List String)
    (fuel : Nat) (hret : (generate_messagesCore ctx lst fuel).2 = true) :
    ((generate_messagesCore ctx lst fuel).1).countP isClose = 1 := by
  cases h : (whileTrue ctx lst fuel 0).2.1 with
  | none => simp [generate_messagesCore, h] at hret
  | some ex =>
    cases ex with
    | interrupted =>
        simp [generate_messagesCore, h, isClose_whileTrue, isClose]
    | errored e =>
        simp [generate_messagesCore, h, isClose_whileTrue, isClose]

/-- Witness for C2: an interrupted run returns, and its trace holds exactly
one close event. -/
theorem generate_messages_close_once_witness :
    (generate_messagesCore ctxInt ["a"] 1).2 = true
    ∧ ((generate_messagesCore ctxInt ["a"] 1).1).countP isClose = 1 :=
  ⟨by decide, generate_messages_close_once ctxInt ["a"] 1 (by decide)⟩

/-- Claim C3: when producer acquisition yields no usable handle (and startup
reached that step, i.e. the interval parsed), the process exits with code 3,
no topic creation is attempted and nothing is sent. -/
theorem main_exit3 (w : World) (fuel : Nat)
    (hprod : w.producerOk = false)
    (hint : exceptOk (get_message_interval w.env).2 = true) :
    (main w fuel).2 = MainResult.exited 3
    ∧ (∀ t, Event.createTopic t ∉ (main w fuel).1)
    ∧ sentValues (main w fuel).1 = [] := by
  cases henv : w.env "MESSAGE_INTERVAL_SECONDS" with
  | none =>
      refine ⟨?_, ?_, ?_⟩ <;>
        simp [main, get_kafka_topic, get_message_interval, henv, hprod,
          sentValues]
  | some s =>
      cases hp : pyInt s with
      | some i =>
          refine ⟨?_, ?_, ?_⟩ <;>
            simp [main, get_kafka_topic, get_message_interval, henv, hp,
              hprod, sentValues]
      | none =>
          simp [get_message_interval, henv, hp, exceptOk] at hint

/-- Witness for C3 at a concrete world with a failing producer step. -/
theorem main_exit3_witness :
    (main w0 0).2 = MainResult.exited 3
    ∧ (∀ t, Event.createTopic t ∉ (main w0 0).1)
    ∧ sentValues (main w0 0).1 = [] :=
  main_exit3 w0 0 (by rfl) (by decide)

/-- Claim C4: when topic creation fails after a usable producer was acquired,
the process exits with code 1, nothing is sent, and the loop is never entered
(no close event either). -/
theorem main_exit1 (w : World) (fuel : Nat)
    (hprod : w.producerOk = true)
    (htopic : w.topicOk = false)
    (hint : exceptOk (get_message_interval w.env).2 = true) :
    (main w fuel).2 = MainResult.exited 1
    ∧ sentValues (main w fuel).1 = []
    ∧ Event.close ∉ (main w fuel).1 := by
  cases henv : w.env "MESSAGE_INTERVAL_SECONDS" with
  | none =>
      refine ⟨?_, ?_, ?_⟩ <;>
        simp [main, get_kafka_topic, get_message_interval, henv, hprod,
          htopic, sentValues]
  | some s =>
      cases hp : pyInt s with
      | some i =>
          refine ⟨?_, ?_, ?_⟩ <;>
            simp [main, get_kafka_topic, get_message_interval, henv, hp,
              hprod, htopic, sentValues]
      | none =>
          simp [get_message_interval, henv, hp, exceptOk] at hint

/-- Witness for C4 at a concrete world whose topic creation raises. -/
theorem main_exit1_witness :
    (main w4 0).2 = MainResult.exited 1
    ∧ sentValues (main w4 0).1 = []
    ∧ Event.close ∉ (main w4 0).1 :=
  main_exit1 w4 0 (by rfl) (by rfl) (by decide)

/-- Claim C5: when a send inside the loop raises a non-interrupt exception,
the call returns, exactly the sends before the failure happened (no retry,
no resumption), the failure is logged at error severity and the trace ends
with that error log followed directly by the cleanup events. -/
theorem generate_messages_abandon_on_error (ctx : Ctx) (lst : List String)
    (fuel n : Nat) (e : String)
    (hb : ∀ k, k < n → ctx.outcome k = SendOutcome.ok)
    (he : ctx.outcome n = SendOutcome.error e)
    (hn : n < fuel * lst.length) :
    (generate_messagesCore ctx lst fuel).2 = true
    ∧ (sentValues (generate_messagesCore ctx lst fuel).1).length = n
    ∧ ∃ evs, (generate_messagesCore ctx lst fuel).1
        = evs ++ [Event.logError ("Error in message generation: " ++ e),
                  Event.close, Event.logInfo "Kafka producer closed."] := by
  have hw := whileTrue_error ctx lst e fuel 0 n
    (fun k hk => by simpa using hb k hk) (by simpa using he) hn
  refine ⟨?_, ?_, ⟨(whileTrue ctx lst fuel 0).1, ?_⟩⟩
  · simp [generate_messagesCore, hw.1]
  · simp only [generate_messagesCore, hw.1, sentValues_append,
      List.length_append]
    rw [hw.2]
    rfl
  · simp [generate_messagesCore, hw.1]

/-- Witness for C5: a run whose second send raises ends after one send with
the error log and the cleanup tail. -/
theorem generate_messages_abandon_on_error_witness :
    (generate_messagesCore ctxErr ["a", "b"] 1).2 = true
    ∧ (sentValues (generate_messagesCore ctxErr ["a", "b"] 1).1).length = 1
    ∧ ∃ evs, (generate_messagesCore ctxErr ["a", "b"] 1).1
        = evs ++ [Event.logError ("Error in message generation: " ++ "boom"),
                  Event.close, Event.logInfo "Kafka producer closed."] :=
  generate_messages_abandon_on_error ctxErr ["a", "b"] 1 1 "boom"
    (fun k hk => by
      have hk0 : k = 0 := by omega
      rw [hk0]; rfl)
    (by rfl) (by decide)

/-- Claim C6: with neither variable set, configuration resolves to topic
buzz_topic and interval 10. -/
theorem config_defaults (env : String → Option String)
    (ht : env "KAFKA_TOPIC" = none)
    (hi : env "MESSAGE_INTERVAL_SECONDS" = none) :
    (get_kafka_topic env).2 = "buzz_topic"
    ∧ (get_message_interval env).2 = Except.ok 10 := by
  constructor
  · simp [get_kafka_topic, ht]
  · simp [get_message_interval, hi]

/-- Witness for C6 at the empty environment. -/
theorem config_defaults_witness :
    (get_kafka_topic envEmpty).2 = "buzz_topic"
    ∧ (get_message_interval envEmpty).2 = Except.ok 10 :=
  config_defaults envEmpty (by rfl) (by rfl)

/-- Claim C7: a non-integer interval value makes startup fail with an
uncaught parse error; no producer is created and nothing is sent. -/
theorem main_uncaught_interval (w : World) (fuel : Nat) (s : String)
    (hset : w.env "MESSAGE_INTERVAL_SECONDS" = some s)
    (hbad : pyInt s = none) :
    (main w fuel).2
      = MainResult.uncaught ("invalid literal for int() with base 10: " ++ s)
    ∧ Event.createProducer ∉ (main w fuel).1
    ∧ sentValues (main w fuel).1 = [] := by
  refine ⟨?_, ?_, ?_⟩ <;>
    simp [main, get_kafka_topic, get_message_interval, hset, hbad, sentValues]

/-- Witness for C7 with the interval variable set to the string ten. -/
theorem main_uncaught_interval_witness :
    (main w7 0).2
      = MainResult.uncaught
          ("invalid literal for int() with base 10: " ++ "ten")
    ∧ Event.createProducer ∉ (main w7 0).1
    ∧ sentValues (main w7 0).1 = [] :=
  main_uncaught_interval w7 0 "ten" (by decide) (by decide)

/-- Claim C8: in an uninterrupted, failure-free run, the subtrace of sends
and waits is exactly each sent value immediately followed by one wait of the
configured interval, so every send (wraparound included) is followed by one
interval wait before the next send. -/
theorem generate_messages_wait_each (ctx : Ctx) (lst : List String)
    (fuel : Nat) (hok : ∀ k, ctx.outcome k = SendOutcome.ok) :
    sendSleepProj (generate_messagesCore ctx lst fuel).1
      = (sentValues (generate_messagesCore ctx lst fuel).1).flatMap
          (fun v => [Sum.inl v, Sum.inr ctx.interval]) := by
  have hw := whileTrue_clean ctx lst hok fuel 0
  simp [generate_messagesCore, hw, sentValues_blocks, sendSleepProj_blocks]

/-- Witness for C8 on a clean two-element run. -/
theorem generate_messages_wait_each_witness :
    sendSleepProj (generate_messagesCore ctxA ["a", "b"] 1).1
      = (sentValues (generate_messagesCore ctxA ["a", "b"] 1).1).flatMap
          (fun v => [Sum.inl v, Sum.inr ctxA.interval]) :=
  generate_messages_wait_each ctxA ["a", "b"] 1 (fun _ => rfl)

/-- Counterexample to C9 as stated: in a concrete run of `main`, the first
configuration read does NOT occur at an earlier trace position than the
dependency verification step. -/
theorem main_config_before_verify_counterexample :
    ¬ ((main w9 0).1.findIdx (fun e => e == Event.getenv "KAFKA_TOPIC")
        < (main w9 0).1.findIdx (fun e => e == Event.verifyServices)) := by
  decide

/-- Claim C9 amended: in every execution of `main`, dependency verification
comes first, and only then are the topic and the interval resolved: the trace
always starts with the two startup logs, the dotenv load, the verification
step, and only after those the two environment reads. -/
theorem main_verify_before_config (w : World) (fuel : Nat) :
    ∃ rest, (main w fuel).1
      = [Event.logInfo "START producer.",
         Event.logInfo "Loading environment variables from .env file...",
         Event.loadDotenv,
         Event.verifyServices,
         Event.getenv "KAFKA_TOPIC",
         Event.logInfo ("Kafka topic: "
           ++ ((w.env "KAFKA_TOPIC").getD "buzz_topic")),
         Event.getenv "MESSAGE_INTERVAL_SECONDS"] ++ rest := by
  obtain ⟨evs, hevs⟩ := get_message_interval_head w.env
  rcases hI : (get_message_interval w.env).2 with e | i
  · exact ⟨evs, by simp [main, get_kafka_topic, hI, hevs]⟩
  · by_cases hp : w.producerOk = false
    · exact ⟨_, by simp [main, get_kafka_topic, hI, hevs, hp]; rfl⟩
    · by_cases ht : w.topicOk = false
      · exact ⟨_, by simp [main, get_kafka_topic, hI, hevs, hp, ht]; rfl⟩
      · rcases hG : generate_messages
            ⟨(w.env "KAFKA_TOPIC").getD "buzz_topic", i, w.outcome⟩ fuel
          with ⟨evsG, b⟩
        cases b
        · exact ⟨_,
            by simp [main, get_kafka_topic, hI, hevs, hp, ht, hG]; rfl⟩
        · exact ⟨_,
            by simp [main, get_kafka_topic, hI, hevs, hp, ht, hG]; rfl⟩

/-- Claim C10: an interval value parsing to a negative integer is returned
unchanged by configuration resolution; nothing rejects or clamps it. -/
theorem interval_negative_passthrough (env : String → Option String)
    (s : String) (i : Int)
    (hset : env "MESSAGE_INTERVAL_SECONDS" = some s)
    (hparse : pyInt s = some i) (_hneg : i < 0) :
    (get_message_interval env).2 = Except.ok i := by
  simp [get_message_interval, hset, hparse]

/-- Witness for C10: the value -5 is resolved to the interval -5. -/
theorem interval_negative_passthrough_witness :
    (get_message_interval envNeg).2 = Except.ok (-5) :=
  interval_negative_passthrough envNeg "-5" (-5) (by decide) (by decide)
    (by decide)

end BuzzProducer
